import Mathlib

/-!
Shallow embedding of `src/lib/appscale_tools.py` (class `AppScaleTools`).

Each verb of the class is modelled as a pure Lean function.  Remote calls and
calls into consumed modules (`LocalState`, `RemoteHelper`, `AppControllerClient`,
`UserAppClient`, `AppEngineHelper`) are modelled by an environment record whose
fields give the outcome of each call site (`Except Err _` for fallible calls),
and every call or observable side effect performed by a verb is recorded, in
program order, in a trace of `Effect` values.  A Python exception raised by a
verb is an `Except.error` outcome; effects emitted before the raise stay in the
trace, exactly as the corresponding Python side effects would have happened.
-/

/-- Exceptions raised by the tools (from `custom_exceptions`) and failures of
remote or shell calls. -/
inductive Err where
  | appScaleException (msg : String)
  | badConfigurationException (msg : String)
  | shellException (msg : String)
  | remoteFailure (msg : String)
deriving DecidableEq, Repr

/-- The message text carried by an error (Python `str(e)`). -/
def errMsg : Err → String
  | .appScaleException m => m
  | .badConfigurationException m => m
  | .shellException m => m
  | .remoteFailure m => m

/-- Observable side effects and outgoing calls of the verbs, in program order. -/
inductive Effect where
  | extractApp (file : String)
  | createUserAccounts (username : String) (host : String)
  | reserveAppId (username : String) (appId : String) (language : String)
  | copyAppToHost (file : String)
  | doneUploading (appId : String) (remotePath : String)
  | update (appId : String)
  | sleep (seconds : Nat)
  | sleepUntilPortIsOpen (host : String) (port : Nat)
  | logMsg (msg : String)
  | warn (msg : String)
  | successMsg (msg : String)
  | rmtree (dir : String)
  | sshProbe (ip : String)
  | startRolesOnNodes (ips : List (String × String))
  | terminateCloudInfrastructure (keyname : String)
  | terminateVirtualizedCluster (keyname : String)
  | cleanupAppScaleFiles (keyname : String)
  | mkdir (path : String)
  | scpRemoteToLocal (ip : String) (localDir : String)
  | startHeadNode
  | copyLocalMetadata (host : String)
  | updateLocalMetadata (keyname : String)
  | setAdminRole (username : String)
  | waitForMachinesToFinishLoading
  | remoteLogToolsState (state : String)
deriving DecidableEq, Repr

/-- Sequencing of one call site: `x` is the call's outcome, `tr` the effects
emitted by performing the call itself (present in the trace even when the call
raises), and `k` the rest of the verb.  On an error the verb stops with the
effects so far, mirroring Python exception propagation. -/
def effStep {α β : Type} (x : Except Err α) (tr : List Effect)
    (k : α → Except Err β × List Effect) : Except Err β × List Effect :=
  match x with
  | .error e => (.error e, tr)
  | .ok a => ((k a).1, tr ++ (k a).2)

/-- Python truthiness of an optional string option (`None` and `""` are falsy). -/
def truthy : Option String → Bool
  | none => false
  | some s => !s.isEmpty

/-- Modelled from the spec: the default admin username held by the consumed
`LocalState` module (`LocalState.DEFAULT_USER`, the "test defaults" of §4.1);
its concrete value is irrelevant to the orchestrator logic. -/
def DEFAULT_USER : String := "a@a.a"

/-- Modelled from the spec: the default admin password held by the consumed
`LocalState` module (`LocalState.DEFAULT_PASSWORD`). -/
def DEFAULT_PASSWORD : String := "aaaaaa"

/-- `AppScaleTools.TAR_GZ_REGEX = re.compile('.tar.gz\\Z')`, used via `.search`:
the name matches when some 7-character suffix fits the pattern
any, `t`, `a`, `r`, any, `g`, `z` (the unescaped dots match any character
except a newline), anchored at the end of the string by `\\Z`. -/
def tarGzMatch (s : String) : Bool :=
  let cs := s.data
  let n := cs.length
  if n < 7 then false
  else
    match cs.drop (n - 7) with
    | [c0, c1, c2, c3, c4, c5, c6] =>
      c0 != '\n' && c1 == 't' && c2 == 'a' && c3 == 'r' &&
      c4 != '\n' && c5 == 'g' && c6 == 'z'
    | _ => false

/-- The options consumed by `upload_app` (fields of the CLI `Namespace` it
reads): app bundle path, keyname, verbosity, test flag, optional owner email
(`None` when the flag was not given). -/
structure UploadOptions where
  file : String
  keyname : String
  verbose : Bool
  test : Bool
  email : Option String

/-- Outcomes of the external call sites of `upload_app`, one field per call
site in source order.  Registry queries that depend on a runtime argument are
functions of that argument. -/
structure UploadEnv where
  extractAppToDir : Except Err String
  getAppIdFromAppConfig : Except Err String
  getAppRuntimeFromAppConfig : Except Err String
  validateAppId : String → Except Err Unit
  getLoginHost : Except Err String
  getSecretKey : Except Err String
  getUaserverHost : Except Err String
  getUsernameFromStdin : String
  getPasswordFromStdin : String
  doesUserExist : String → Except Err Bool
  createUserAccounts : Except Err Unit
  doesAppExist : String → Except Err Bool
  getAppAdmin : String → Except Err (Option String)
  reserveAppId : Except Err Unit
  copyAppToHost : Except Err String
  doneUploading : Except Err Unit
  update : Except Err Unit
  getServingInfo : Except Err (String × Nat)
  sleepUntilPortIsOpen : String → Nat → Except Err Unit

/-- Username resolution of `upload_app` (lines 420-425): test flag first, then
a truthy `--email` flag, else the interactive prompt. -/
def resolved_username (env : UploadEnv) (opts : UploadOptions) : String :=
  if opts.test then DEFAULT_USER
  else if truthy opts.email then opts.email.getD ""
  else env.getUsernameFromStdin

/-- The ownership-rejection message of `upload_app` (lines 435-437). -/
def ownershipRejectionMsg : String :=
  "The given user does not own this application, so they cannot upload " ++
  "an app with that application ID. Please change the application ID " ++
  "and try again."

/-- The ownership check of `upload_app` (lines 434-437): raises only when a
registered owner exists and differs from the resolved username. -/
def ownership_check (username : String) (app_admin : Option String) :
    Except Err Unit :=
  match app_admin with
  | some admin =>
    if username ≠ admin then .error (.appScaleException ownershipRejectionMsg)
    else .ok ()
  | none => .ok ()

/-- `AppScaleTools.upload_app` (lines 390-468): extraction of `.tar.gz`
bundles, app-id/runtime resolution, client construction, username resolution,
account creation for unknown users, existence and ownership checks, reservation
of new app ids, staging, update, the re-deploy sleep, the serving-port wait,
and removal of the extraction directory on the success path only. -/
def upload_app (env : UploadEnv) (opts : UploadOptions) :
    Except Err (String × Nat) × List Effect :=
  effStep
    (if tarGzMatch opts.file then env.extractAppToDir.map (fun d => (d, true))
     else .ok (opts.file, false))
    (if tarGzMatch opts.file then [Effect.extractApp opts.file] else [])
    fun fl =>
  let file_location := fl.1
  let created_dir := fl.2
  effStep env.getAppIdFromAppConfig [] fun app_id =>
  effStep env.getAppRuntimeFromAppConfig [] fun app_language =>
  effStep (env.validateAppId app_id) [] fun _ =>
  effStep env.getLoginHost [] fun _login_host =>
  effStep env.getSecretKey [] fun _secret =>
  effStep env.getUaserverHost [] fun userappserver_host =>
  let username := resolved_username env opts
  effStep (env.doesUserExist username) [] fun user_exists =>
  effStep (if user_exists then .ok () else env.createUserAccounts)
    (if user_exists then []
     else [Effect.createUserAccounts username userappserver_host])
    fun _ =>
  effStep (env.doesAppExist app_id) [] fun app_exists =>
  effStep (env.getAppAdmin app_id) [] fun app_admin =>
  effStep (ownership_check username app_admin) [] fun _ =>
  effStep (if app_exists then .ok () else env.reserveAppId)
    (if app_exists then
       [Effect.logMsg ("Uploading new version of app " ++ app_id)]
     else
       [Effect.logMsg ("Uploading initial version of app " ++ app_id),
        Effect.reserveAppId username app_id app_language])
    fun _ =>
  effStep env.copyAppToHost [Effect.copyAppToHost file_location]
    fun remote_file_path =>
  effStep env.doneUploading [Effect.doneUploading app_id remote_file_path]
    fun _ =>
  effStep env.update [Effect.update app_id] fun _ =>
  effStep (.ok ()) [Effect.logMsg "Please wait for your app to start serving."]
    fun _ =>
  effStep (.ok ()) (if app_exists then [Effect.sleep 20] else []) fun _ =>
  effStep env.getServingInfo [] fun sp =>
  let serving_host := sp.1
  let serving_port := sp.2
  effStep (env.sleepUntilPortIsOpen serving_host serving_port)
    [Effect.sleepUntilPortIsOpen serving_host serving_port] fun _ =>
  effStep (.ok ())
    [Effect.successMsg ("Your app can be reached at the following URL: " ++
      "http://" ++ serving_host ++ ":" ++ toString serving_port)]
    fun _ =>
  effStep (.ok ())
    (if created_dir then [Effect.rmtree file_location] else [])
    fun _ =>
  (.ok (serving_host, serving_port), [])

/-! ## `describe_instances` -/

/-- Options consumed by `describe_instances`. -/
structure DescribeOptions where
  keyname : String
  verbose : Bool

/-- Outcomes of the external call sites of `describe_instances`. -/
structure DescribeEnv where
  getLoginHost : Except Err String
  getSecretKey : Except Err String
  getAllPublicIps : Except Err (List String)
  getStatus : String → Except Err String

/-- Trace of one iteration of the node loop of `describe_instances`
(lines 163-169): the per-node header log, then either the status log or,
when `get_status` raises, the warning — the exception is caught there and the
loop continues. -/
def node_status_trace (env : DescribeEnv) (ip : String) : List Effect :=
  Effect.logMsg ("Status of node at " ++ ip ++ ":") ::
    match env.getStatus ip with
    | .ok st => [Effect.logMsg st]
    | .error e => [Effect.warn ("Unable to contact machine: " ++ errMsg e ++ "\n")]

/-- Trace of the whole node loop of `describe_instances`, one node at a time
in roster order. -/
def nodes_trace (env : DescribeEnv) : List String → List Effect
  | [] => []
  | ip :: tl => node_status_trace env ip ++ nodes_trace env tl

/-- `AppScaleTools.describe_instances` (lines 150-172): resolve the login
host and secret, list the public addresses, query each node with per-node
exception handling, and report success. -/
def describe_instances (env : DescribeEnv) (_opts : DescribeOptions) :
    Except Err Unit × List Effect :=
  effStep env.getLoginHost [] fun login_host =>
  effStep env.getSecretKey [] fun _secret =>
  effStep env.getAllPublicIps [] fun ips =>
  effStep (.ok ()) (nodes_trace env ips) fun _ =>
  (.ok (), [Effect.successMsg ("View status information about your AppScale " ++
    "deployment at http://" ++ login_host ++ "/status")])

/-! ## `gather_logs` -/

/-- Options consumed by `gather_logs`. -/
structure GatherOptions where
  location : String
  keyname : String
  verbose : Bool

/-- Outcomes of the external call sites of `gather_logs`; `locationExists` is
the `os.path.exists(options.location)` probe. -/
structure GatherEnv where
  locationExists : Bool
  getLoginHost : Except Err String
  getSecretKey : Except Err String
  getAllPublicIps : Except Err (List String)
  scpRemoteToLocal : String → Except Err Unit

/-- The node loop of `gather_logs` (lines 197-202): per node, make the local
subdirectory then fetch `/var/log/appscale`; a fetch failure propagates
(no handler in the source). -/
def gather_node_logs (env : GatherEnv) (location : String) :
    List String → Except Err Unit × List Effect
  | [] => (.ok (), [])
  | ip :: tl =>
    let local_dir := location ++ "/" ++ ip
    match env.scpRemoteToLocal ip with
    | .error e =>
      (.error e, [Effect.mkdir local_dir, Effect.scpRemoteToLocal ip local_dir])
    | .ok () =>
      let r := gather_node_logs env location tl
      (r.1, Effect.mkdir local_dir :: Effect.scpRemoteToLocal ip local_dir :: r.2)

/-- `AppScaleTools.gather_logs` (lines 175-204): destination-collision check
first, then client construction (login host, then secret key), and only then
the `mkdir` of the destination — the source comments that the `mkdir` is done
after the secret key is read so a bad keyname crashes the tool before the
directory is created. -/
def gather_logs (env : GatherEnv) (opts : GatherOptions) :
    Except Err Unit × List Effect :=
  if env.locationExists then
    (.error (.appScaleException ("Cannot gather logs, as the location you " ++
      "specified, " ++ opts.location ++ ", already exists.")), [])
  else
  effStep env.getLoginHost [] fun _login_host =>
  effStep env.getSecretKey [] fun _secret =>
  effStep (.ok ()) [Effect.mkdir opts.location] fun _ =>
  effStep env.getAllPublicIps [] fun ips =>
  let r := gather_node_logs env opts.location ips
  effStep r.1 r.2 fun _ =>
  (.ok (), [Effect.successMsg ("Successfully copied logs to " ++ opts.location)])

/-! ## `add_instances` -/

/-- Options consumed by `add_instances`: the requested role → address map
(`options.ips`), keyname, verbosity. -/
structure AddOptions where
  ips : List (String × String)
  keyname : String
  verbose : Bool

/-- Outcomes of the external call sites of `add_instances`.  `nodeLayout` is
the `NodeLayout(options)` construction by the consumed topology planner. -/
structure AddEnv where
  nodeLayout : Except Err Unit
  getFromYamlInfrastructure : Except Err String
  ssh : String → Except Err Unit
  getLoginHost : Except Err String
  getSecretKey : Except Err String
  startRolesOnNodes : Except Err Unit

/-- The SSH-probe loop of `add_instances` (lines 76-78): each address in turn,
a `ShellException` propagates. -/
def ssh_probe_nodes (env : AddEnv) :
    List String → Except Err Unit × List Effect
  | [] => (.ok (), [])
  | ip :: tl =>
    match env.ssh ip with
    | .error e => (.error e, [Effect.sshProbe ip])
    | .ok () =>
      let r := ssh_probe_nodes env tl
      (r.1, Effect.sshProbe ip :: r.2)

/-- `AppScaleTools.add_instances` (lines 57-91): the master-role guard comes
first, before the layout construction, the yaml read, the SSH probes and the
controller RPC. -/
def add_instances (env : AddEnv) (opts : AddOptions) :
    Except Err Unit × List Effect :=
  if (opts.ips.map Prod.fst).contains "master" then
    (.error (.badConfigurationException ("Cannot add master nodes to an " ++
      "already running AppScale deployment.")), [])
  else
  effStep env.nodeLayout [] fun _ =>
  effStep env.getFromYamlInfrastructure [] fun infrastructure =>
  let probe :=
    if infrastructure = "xen" then ssh_probe_nodes env (opts.ips.map Prod.snd)
    else (.ok (), [])
  effStep probe.1 probe.2 fun _ =>
  effStep (.ok ()) [Effect.logMsg "Sending request to add instances"] fun _ =>
  effStep env.getLoginHost [] fun _login_ip =>
  effStep env.getSecretKey [] fun _secret =>
  effStep env.startRolesOnNodes [Effect.startRolesOnNodes opts.ips] fun _ =>
  (.ok (), [Effect.successMsg ("Successfully sent request to add instances " ++
    "to this AppScale deployment.")])

/-! ## Local deployment metadata and `terminate_instances` -/

/-- The local metadata store, as the set of keynames that currently have a
deployment metadata record (the locations yaml of the consumed `LocalState`). -/
abbrev FS := List String

/-- Modelled from the spec: `save` of the Deployment Metadata Store (§6),
the effect of `LocalState.update_local_metadata` on record existence — after
it, a record for the keyname exists. -/
def fsSave (keyname : String) (fs : FS) : FS :=
  if fs.contains keyname then fs else keyname :: fs

/-- Modelled from the spec: `delete` of the Deployment Metadata Store (§6),
the effect of `LocalState.cleanup_appscale_files` — the record for the keyname
is removed. -/
def fsDelete (keyname : String) (fs : FS) : FS :=
  fs.erase keyname

/-- Options consumed by `terminate_instances`. -/
structure TermOptions where
  keyname : String
  verbose : Bool

/-- Outcomes of the external call sites of `terminate_instances`:
the infrastructure recorded in the metadata, the agent names known to
`InfrastructureAgentFactory.VALID_AGENTS`, and the two teardown calls of
`RemoteHelper`. -/
structure TermEnv where
  getInfrastructure : String
  validAgents : List String
  terminateCloudInfrastructure : Except Err Unit
  terminateVirtualizedCluster : Except Err Unit

/-- `AppScaleTools.terminate_instances` (lines 364-387): precondition check on
the metadata record, the infrastructure-kind branch choosing the teardown
call, and — only when that call returns — the unconditional local cleanup.
A raising teardown propagates before `cleanup_appscale_files` is reached. -/
def terminate_instances (env : TermEnv) (opts : TermOptions) (fs : FS) :
    Except Err Unit × FS × List Effect :=
  if !(fs.contains opts.keyname) then
    (.error (.appScaleException ("AppScale is not running with the keyname " ++
      opts.keyname)), fs, [])
  else
    let teardown :=
      if env.validAgents.contains env.getInfrastructure then
        (env.terminateCloudInfrastructure,
         [Effect.terminateCloudInfrastructure opts.keyname])
      else
        (env.terminateVirtualizedCluster,
         [Effect.terminateVirtualizedCluster opts.keyname])
    match teardown.1 with
    | .error e => (.error e, fs, teardown.2)
    | .ok () =>
      (.ok (), fsDelete opts.keyname fs,
       teardown.2 ++ [Effect.cleanupAppScaleFiles opts.keyname,
         Effect.successMsg "Successfully shut down your AppScale deployment."])

/-! ## `run_instances` -/

/-- Options consumed by `run_instances`; `admin_user`, `admin_pass` and
`infrastructure` keep Python string-or-`None` semantics. -/
structure RunOptions where
  keyname : String
  force : Bool
  infrastructure : Option String
  admin_user : Option String
  admin_pass : Option String
  test : Bool
  verbose : Bool

/-- Outcomes of the external call sites of `run_instances`, one field per
call site in source order; `userAppClientPort` and `appDashboardPort` stand
for the port constants of the consumed modules. -/
structure RunEnv where
  layoutValid : Bool
  layoutErrors : String
  layoutSupported : Bool
  startHeadNode : Except Err (String × String)
  copyLocalMetadata : Except Err Unit
  getSecretKey : Except Err String
  getUaserverHost : Except Err String
  userAppClientPort : Nat
  portOpenUaserver : Except Err Unit
  getCredentials : String × String
  createUserAccounts : Except Err Unit
  setAdminRole : Except Err Unit
  waitForMachinesToFinishLoading : Except Err Unit
  getLoginHost : Except Err String
  appDashboardPort : Nat
  portOpenDashboard : Except Err Unit

/-- Admin-credential resolution of `run_instances` (lines 334-341): both
explicit flags truthy → use them; otherwise the test flag → the consumed
defaults; otherwise the interactive prompt. -/
def resolve_admin_credentials (opts : RunOptions) (prompt : String × String) :
    String × String :=
  if truthy opts.admin_user && truthy opts.admin_pass then
    (opts.admin_user.getD "", opts.admin_pass.getD "")
  else if opts.test then (DEFAULT_USER, DEFAULT_PASSWORD)
  else prompt

/-- Sequencing of one call site of a verb that also threads the local
metadata store: like `effStep`, with the store preserved on an error. -/
def fsStep {α β : Type} (x : Except Err α) (tr : List Effect) (fs : FS)
    (k : α → FS → Except Err β × FS × List Effect) :
    Except Err β × FS × List Effect :=
  match x with
  | .error e => (.error e, fs, tr)
  | .ok a =>
    let r := k a fs
    (r.1, r.2.1, tr ++ r.2.2)

/-- `AppScaleTools.run_instances` (lines 267-361): the already-running guard
(modelled from the spec for the consumed
`LocalState.ensure_appscale_isnt_running`: existing record and no force flag
is a precondition error), layout validation, head-node start, the three
metadata persists with their remote copies, the registry-port wait, credential
resolution and admin-account creation, the all-nodes wait, and the dashboard
port wait. -/
def run_instances (env : RunEnv) (opts : RunOptions) (fs : FS) :
    Except Err Unit × FS × List Effect :=
  if fs.contains opts.keyname && !opts.force then
    (.error (.appScaleException ("AppScale is already running with the " ++
      "keyname " ++ opts.keyname)), fs, [])
  else
  fsStep (.ok ())
    [Effect.logMsg (match opts.infrastructure with
      | some infrastructure =>
        "Starting AppScale over the " ++ infrastructure ++ " cloud."
      | none => "Starting AppScale over a virtualized cluster."),
     Effect.remoteLogToolsState "started"] fs fun _ fs =>
  fsStep (if env.layoutValid then .ok ()
    else .error (.badConfigurationException ("There were errors with your " ++
      "placement strategy:\n" ++ env.layoutErrors))) [] fs fun _ fs =>
  fsStep (.ok ())
    (if env.layoutSupported then []
     else [Effect.warn ("Warning: This deployment strategy is not " ++
       "officially supported.")]) fs fun _ fs =>
  fsStep env.startHeadNode [Effect.startHeadNode] fs fun pii fs =>
  let public_ip := pii.1
  fsStep (.ok ())
    [Effect.logMsg "Please wait for AppScale to prepare your machines for use."]
    fs fun _ fs =>
  fsStep (.ok ()) [Effect.updateLocalMetadata opts.keyname]
    (fsSave opts.keyname fs) fun _ fs =>
  fsStep env.copyLocalMetadata [Effect.copyLocalMetadata public_ip] fs
    fun _ fs =>
  fsStep env.getSecretKey [] fs fun _secret fs =>
  fsStep env.getUaserverHost [] fs fun uaserver_host fs =>
  fsStep env.portOpenUaserver
    [Effect.sleepUntilPortIsOpen uaserver_host env.userAppClientPort] fs
    fun _ fs =>
  fsStep (.ok ()) [Effect.updateLocalMetadata opts.keyname]
    (fsSave opts.keyname fs) fun _ fs =>
  fsStep env.copyLocalMetadata [Effect.copyLocalMetadata public_ip] fs
    fun _ fs =>
  fsStep (.ok ()) [Effect.logMsg ("UserAppServer is at " ++ uaserver_host)] fs
    fun _ fs =>
  fsStep (.ok ())
    (if truthy opts.admin_user && truthy opts.admin_pass then
       [Effect.logMsg "Using the provided admin username/password"]
     else if opts.test then
       [Effect.logMsg "Using default admin username/password"]
     else []) fs fun _ fs =>
  let creds := resolve_admin_credentials opts env.getCredentials
  fsStep env.createUserAccounts
    [Effect.createUserAccounts creds.1 uaserver_host] fs fun _ fs =>
  fsStep env.setAdminRole [Effect.setAdminRole creds.1] fs fun _ fs =>
  fsStep env.waitForMachinesToFinishLoading
    [Effect.waitForMachinesToFinishLoading] fs fun _ fs =>
  fsStep (.ok ()) [Effect.updateLocalMetadata opts.keyname]
    (fsSave opts.keyname fs) fun _ fs =>
  fsStep env.copyLocalMetadata [Effect.copyLocalMetadata public_ip] fs
    fun _ fs =>
  fsStep env.getLoginHost [] fs fun login_host fs =>
  fsStep env.portOpenDashboard
    [Effect.sleepUntilPortIsOpen login_host env.appDashboardPort] fs
    fun _ fs =>
  (.ok (), fs,
   [Effect.successMsg "AppScale successfully started!",
    Effect.successMsg ("View status information about your AppScale " ++
      "deployment at http://" ++ login_host ++ "/status"),
    Effect.remoteLogToolsState "finished"])

/-! ## Helper predicates for the theorems -/

/-- Whether an effect is a warning report. -/
def isWarnEffect : Effect → Bool
  | .warn _ => true
  | _ => false

/-- Whether a call outcome is a success. -/
def isOkExcept {α : Type} : Except Err α → Bool
  | .ok _ => true
  | .error _ => false

/-- The effect trace of `r` contains `eff` whenever the outcome of `r` is a
success. -/
def MemOnOk (eff : Effect) {α : Type} (r : Except Err α × List Effect) : Prop :=
  ∀ v, r.1 = Except.ok v → eff ∈ r.2

/-- The effect trace of `r` contains no directory removal whenever the outcome
of `r` is an error. -/
def NoRmtreeOnErr {α : Type} (r : Except Err α × List Effect) : Prop :=
  ∀ e p, r.1 = Except.error e → Effect.rmtree p ∉ r.2

/-! ## Concrete environments used by witnesses and counterexamples -/

/-- An upload environment whose registry reports `bob@foo.goo` as the owner of
the application; every call succeeds. -/
def uploadEnvOwnerMismatch : UploadEnv where
  extractAppToDir := .ok "/tmp/appscale-app-guestbook"
  getAppIdFromAppConfig := .ok "guestbook"
  getAppRuntimeFromAppConfig := .ok "python"
  validateAppId := fun _ => .ok ()
  getLoginHost := .ok "1.2.3.4"
  getSecretKey := .ok "secret"
  getUaserverHost := .ok "1.2.3.5"
  getUsernameFromStdin := "alice@foo.goo"
  getPasswordFromStdin := "password"
  doesUserExist := fun _ => .ok true
  createUserAccounts := .ok ()
  doesAppExist := fun _ => .ok true
  getAppAdmin := fun _ => .ok (some "bob@foo.goo")
  reserveAppId := .ok ()
  copyAppToHost := .ok "/opt/appscale/guestbook.tar.gz"
  doneUploading := .ok ()
  update := .ok ()
  getServingInfo := .ok ("1.2.3.6", 8080)
  sleepUntilPortIsOpen := fun _ _ => .ok ()

/-- An upload environment whose registry reports no owner for the application;
every call succeeds. -/
def uploadEnvNoOwner : UploadEnv where
  extractAppToDir := .ok "/tmp/appscale-app-guestbook"
  getAppIdFromAppConfig := .ok "guestbook"
  getAppRuntimeFromAppConfig := .ok "python"
  validateAppId := fun _ => .ok ()
  getLoginHost := .ok "1.2.3.4"
  getSecretKey := .ok "secret"
  getUaserverHost := .ok "1.2.3.5"
  getUsernameFromStdin := "alice@foo.goo"
  getPasswordFromStdin := "password"
  doesUserExist := fun _ => .ok true
  createUserAccounts := .ok ()
  doesAppExist := fun _ => .ok false
  getAppAdmin := fun _ => .ok none
  reserveAppId := .ok ()
  copyAppToHost := .ok "/opt/appscale/guestbook.tar.gz"
  doneUploading := .ok ()
  update := .ok ()
  getServingInfo := .ok ("1.2.3.6", 8080)
  sleepUntilPortIsOpen := fun _ _ => .ok ()

/-- An upload environment for a re-deploy: the application exists and its
registered owner is the test default user, i.e. the resolved username;
every call succeeds. -/
def uploadEnvReDeploy : UploadEnv where
  extractAppToDir := .ok "/tmp/appscale-app-guestbook"
  getAppIdFromAppConfig := .ok "guestbook"
  getAppRuntimeFromAppConfig := .ok "python"
  validateAppId := fun _ => .ok ()
  getLoginHost := .ok "1.2.3.4"
  getSecretKey := .ok "secret"
  getUaserverHost := .ok "1.2.3.5"
  getUsernameFromStdin := "alice@foo.goo"
  getPasswordFromStdin := "password"
  doesUserExist := fun _ => .ok true
  createUserAccounts := .ok ()
  doesAppExist := fun _ => .ok true
  getAppAdmin := fun _ => .ok (some DEFAULT_USER)
  reserveAppId := .ok ()
  copyAppToHost := .ok "/opt/appscale/guestbook.tar.gz"
  doneUploading := .ok ()
  update := .ok ()
  getServingInfo := .ok ("1.2.3.6", 8080)
  sleepUntilPortIsOpen := fun _ _ => .ok ()

/-- Upload options for a compressed bundle under the test flag. -/
def uploadOptsTarGz : UploadOptions where
  file := "guestbook.tar.gz"
  keyname := "bootkey"
  verbose := false
  test := true
  email := none

/-- A run environment in which every remote call succeeds. -/
def runEnvAllOk : RunEnv where
  layoutValid := true
  layoutErrors := ""
  layoutSupported := true
  startHeadNode := .ok ("1.2.3.4", "i-ABCDEFG")
  copyLocalMetadata := .ok ()
  getSecretKey := .ok "secret"
  getUaserverHost := .ok "1.2.3.5"
  userAppClientPort := 4343
  portOpenUaserver := .ok ()
  getCredentials := ("alice@foo.goo", "password")
  createUserAccounts := .ok ()
  setAdminRole := .ok ()
  waitForMachinesToFinishLoading := .ok ()
  getLoginHost := .ok "1.2.3.4"
  appDashboardPort := 1080
  portOpenDashboard := .ok ()

/-- Run options for a fresh cloud deployment under the test flag. -/
def runOptsBoot : RunOptions where
  keyname := "bootkey"
  force := false
  infrastructure := some "ec2"
  admin_user := none
  admin_pass := none
  test := true
  verbose := false

/-- A terminate environment whose cloud teardown call raises. -/
def termEnvRaising : TermEnv where
  getInfrastructure := "ec2"
  validAgents := ["ec2", "euca"]
  terminateCloudInfrastructure := .error (.remoteFailure "shutdown failed")
  terminateVirtualizedCluster := .ok ()

/-- A terminate environment whose teardown calls return normally. -/
def termEnvOk : TermEnv where
  getInfrastructure := "ec2"
  validAgents := ["ec2", "euca"]
  terminateCloudInfrastructure := .ok ()
  terminateVirtualizedCluster := .ok ()

/-- Terminate options for the same keyname as `runOptsBoot`. -/
def termOptsBoot : TermOptions where
  keyname := "bootkey"
  verbose := false

/-- A describe environment with three known nodes of which only the first
answers its status query. -/
def describeEnvPartial : DescribeEnv where
  getLoginHost := .ok "1.2.3.4"
  getSecretKey := .ok "secret"
  getAllPublicIps := .ok ["1.2.3.4", "1.2.3.5", "1.2.3.6"]
  getStatus := fun ip =>
    if ip = "1.2.3.4" then .ok "node is up"
    else .error (.remoteFailure ("no route to " ++ ip))

/-- Describe options for the witness. -/
def describeOptsBoot : DescribeOptions where
  keyname := "bootkey"
  verbose := false

/-- A gather environment whose destination directory already exists. -/
def gatherEnvExisting : GatherEnv where
  locationExists := true
  getLoginHost := .ok "1.2.3.4"
  getSecretKey := .ok "secret"
  getAllPublicIps := .ok ["1.2.3.4"]
  scpRemoteToLocal := fun _ => .ok ()

/-- Gather options for the witness. -/
def gatherOptsBoot : GatherOptions where
  location := "/tmp/appscale-logs"
  keyname := "bootkey"
  verbose := false

/-- An add-instances environment in which every call succeeds. -/
def addEnvAllOk : AddEnv where
  nodeLayout := .ok ()
  getFromYamlInfrastructure := .ok "xen"
  ssh := fun _ => .ok ()
  getLoginHost := .ok "1.2.3.4"
  getSecretKey := .ok "secret"
  startRolesOnNodes := .ok ()

/-- Add-instances options whose roster requests a master node. -/
def addOptsMaster : AddOptions where
  ips := [("master", "1.2.3.7")]
  keyname := "bootkey"
  verbose := false

/-! ## Theorems -/

/-- C3: for every options value whose requested node roster contains the
master role, `add_instances` rejects with a `BadConfigurationException` and
the effect trace is empty — no SSH probe and no controller RPC was made. -/
theorem add_instances_master_guard (env : AddEnv) (opts : AddOptions)
    (h : (opts.ips.map Prod.fst).contains "master" = true) :
    add_instances env opts =
      (.error (.badConfigurationException ("Cannot add master nodes to an " ++
        "already running AppScale deployment.")), []) := by
  unfold add_instances
  rw [if_pos h]

/-- Witness for C3: the guard fires on a concrete roster requesting a master
node against an otherwise fully healthy environment. -/
theorem add_instances_master_guard_witness :
    add_instances addEnvAllOk addOptsMaster =
      (.error (.badConfigurationException ("Cannot add master nodes to an " ++
        "already running AppScale deployment.")), []) :=
  add_instances_master_guard addEnvAllOk addOptsMaster (by decide)

/-- C4: for every invocation of `terminate_instances` where no deployment
metadata record exists for the keyname, the verb fails with an
`AppScaleException`, the metadata store is unchanged and the effect trace is
empty — no remote call was made. -/
theorem terminate_instances_no_metadata_guard (env : TermEnv)
    (opts : TermOptions) (fs : FS) (h : fs.contains opts.keyname = false) :
    terminate_instances env opts fs =
      (.error (.appScaleException ("AppScale is not running with the keyname " ++
        opts.keyname)), fs, []) := by
  have hc : (!(List.contains fs opts.keyname)) = true := by rw [h]; rfl
  unfold terminate_instances
  rw [if_pos hc]

/-- Witness for C4: terminating a keyname with an empty metadata store fails
without any remote call. -/
theorem terminate_instances_no_metadata_guard_witness :
    terminate_instances termEnvRaising termOptsBoot [] =
      (.error (.appScaleException ("AppScale is not running with the keyname " ++
        "bootkey")), [], []) :=
  terminate_instances_no_metadata_guard termEnvRaising termOptsBoot [] (by decide)

/-- C1: whenever the registry reports an existing owner of the application
different from the resolved username, `upload_app` fails with the ownership
`AppScaleException` and its trace contains no `reserve_app_id`, no
`done_uploading` and no `update` call. -/
theorem upload_app_owner_mismatch_rejects (env : UploadEnv)
    (opts : UploadOptions) (d app_id lang lh sk uh owner : String)
    (ue ae : Bool)
    (hd : env.extractAppToDir = .ok d)
    (hai : env.getAppIdFromAppConfig = .ok app_id)
    (har : env.getAppRuntimeFromAppConfig = .ok lang)
    (hva : env.validateAppId app_id = .ok ())
    (hlh : env.getLoginHost = .ok lh)
    (hsk : env.getSecretKey = .ok sk)
    (huh : env.getUaserverHost = .ok uh)
    (hue : env.doesUserExist (resolved_username env opts) = .ok ue)
    (hcu : env.createUserAccounts = .ok ())
    (hae : env.doesAppExist app_id = .ok ae)
    (had : env.getAppAdmin app_id = .ok (some owner))
    (hne : resolved_username env opts ≠ owner) :
    (upload_app env opts).1 =
      .error (.appScaleException ownershipRejectionMsg) ∧
    (∀ u a l, Effect.reserveAppId u a l ∉ (upload_app env opts).2) ∧
    (∀ a r, Effect.doneUploading a r ∉ (upload_app env opts).2) ∧
    (∀ a, Effect.update a ∉ (upload_app env opts).2) := by
  cases ue <;> cases htgz : tarGzMatch opts.file <;>
    simp [upload_app, effStep, ownership_check, htgz, hd, hai, har, hva, hlh,
      hsk, huh, hue, hcu, hae, had, hne, Except.map]

/-- Witness for C1: concrete mismatch — the test default user uploads an app
owned by `bob@foo.goo`; the verb rejects and the three calls are absent. -/
theorem upload_app_owner_mismatch_rejects_witness :
    (upload_app uploadEnvOwnerMismatch uploadOptsTarGz).1 =
      .error (.appScaleException ownershipRejectionMsg) ∧
    (∀ u a l, Effect.reserveAppId u a l ∉
      (upload_app uploadEnvOwnerMismatch uploadOptsTarGz).2) ∧
    (∀ a r, Effect.doneUploading a r ∉
      (upload_app uploadEnvOwnerMismatch uploadOptsTarGz).2) ∧
    (∀ a, Effect.update a ∉
      (upload_app uploadEnvOwnerMismatch uploadOptsTarGz).2) :=
  upload_app_owner_mismatch_rejects uploadEnvOwnerMismatch uploadOptsTarGz
    "/tmp/appscale-app-guestbook" "guestbook" "python" "1.2.3.4" "secret"
    "1.2.3.5" "bob@foo.goo" true true rfl rfl rfl rfl rfl rfl rfl rfl rfl rfl
    rfl (by decide)

/-- C10: whenever the registry reports no owner for the application, the
ownership check passes for every resolved username and the upload proceeds to
completion, returning the serving address. -/
theorem upload_app_no_owner_proceeds (env : UploadEnv)
    (opts : UploadOptions) (d app_id lang lh sk uh rp sh : String)
    (sp : Nat) (ue ae : Bool)
    (hd : env.extractAppToDir = .ok d)
    (hai : env.getAppIdFromAppConfig = .ok app_id)
    (har : env.getAppRuntimeFromAppConfig = .ok lang)
    (hva : env.validateAppId app_id = .ok ())
    (hlh : env.getLoginHost = .ok lh)
    (hsk : env.getSecretKey = .ok sk)
    (huh : env.getUaserverHost = .ok uh)
    (hue : env.doesUserExist (resolved_username env opts) = .ok ue)
    (hcu : env.createUserAccounts = .ok ())
    (hae : env.doesAppExist app_id = .ok ae)
    (had : env.getAppAdmin app_id = .ok none)
    (hra : env.reserveAppId = .ok ())
    (hcp : env.copyAppToHost = .ok rp)
    (hdu : env.doneUploading = .ok ())
    (hup : env.update = .ok ())
    (hsi : env.getServingInfo = .ok (sh, sp))
    (hpo : env.sleepUntilPortIsOpen sh sp = .ok ()) :
    (upload_app env opts).1 = .ok (sh, sp) := by
  cases ue <;> cases ae <;> cases htgz : tarGzMatch opts.file <;>
    simp [upload_app, effStep, ownership_check, htgz, hd, hai, har, hva, hlh,
      hsk, huh, hue, hcu, hae, had, hra, hcp, hdu, hup, hsi, hpo, Except.map]

/-- Witness for C10: a concrete unowned application uploads end to end and
returns its serving address. -/
theorem upload_app_no_owner_proceeds_witness :
    (upload_app uploadEnvNoOwner uploadOptsTarGz).1 = .ok ("1.2.3.6", 8080) :=
  upload_app_no_owner_proceeds uploadEnvNoOwner uploadOptsTarGz
    "/tmp/appscale-app-guestbook" "guestbook" "python" "1.2.3.4" "secret"
    "1.2.3.5" "/opt/appscale/guestbook.tar.gz" "1.2.3.6" 8080 true false
    rfl rfl rfl rfl rfl rfl rfl rfl rfl rfl rfl rfl rfl rfl rfl rfl rfl

/-- C8: on every successful invocation — all calls succeed and the ownership
check passes, i.e. the application has no registered owner or its owner equals
the resolved username (the re-deploy case) —
`upload_app` returns exactly the serving
host and port obtained from the registry, and its effect trace places the
extra 20-second sleep (present exactly when the application already existed)
and then the blocking serving-port wait before the success report, which is
the last effect before the success-path cleanup of the extraction directory. -/
theorem upload_app_success_serving_contract (env : UploadEnv)
    (opts : UploadOptions) (d app_id lang lh sk uh rp sh : String)
    (sp : Nat) (ue ae : Bool) (admin : Option String)
    (hd : env.extractAppToDir = .ok d)
    (hai : env.getAppIdFromAppConfig = .ok app_id)
    (har : env.getAppRuntimeFromAppConfig = .ok lang)
    (hva : env.validateAppId app_id = .ok ())
    (hlh : env.getLoginHost = .ok lh)
    (hsk : env.getSecretKey = .ok sk)
    (huh : env.getUaserverHost = .ok uh)
    (hue : env.doesUserExist (resolved_username env opts) = .ok ue)
    (hcu : env.createUserAccounts = .ok ())
    (hae : env.doesAppExist app_id = .ok ae)
    (had : env.getAppAdmin app_id = .ok admin)
    (hoc : ownership_check (resolved_username env opts) admin = .ok ())
    (hra : env.reserveAppId = .ok ())
    (hcp : env.copyAppToHost = .ok rp)
    (hdu : env.doneUploading = .ok ())
    (hup : env.update = .ok ())
    (hsi : env.getServingInfo = .ok (sh, sp))
    (hpo : env.sleepUntilPortIsOpen sh sp = .ok ()) :
    upload_app env opts = (.ok (sh, sp),
      (if tarGzMatch opts.file then [Effect.extractApp opts.file] else []) ++
      (if ue then []
       else [Effect.createUserAccounts (resolved_username env opts) uh]) ++
      (if ae then [Effect.logMsg ("Uploading new version of app " ++ app_id)]
       else [Effect.logMsg ("Uploading initial version of app " ++ app_id),
         Effect.reserveAppId (resolved_username env opts) app_id lang]) ++
      [Effect.copyAppToHost (if tarGzMatch opts.file then d else opts.file),
       Effect.doneUploading app_id rp,
       Effect.update app_id,
       Effect.logMsg "Please wait for your app to start serving."] ++
      (if ae then [Effect.sleep 20] else []) ++
      [Effect.sleepUntilPortIsOpen sh sp,
       Effect.successMsg ("Your app can be reached at the following URL: " ++
         "http://" ++ sh ++ ":" ++ toString sp)] ++
      (if tarGzMatch opts.file then [Effect.rmtree d] else [])) := by
  cases ue <;> cases ae <;> cases htgz : tarGzMatch opts.file <;>
    simp [upload_app, effStep, htgz, hd, hai, har, hva, hlh,
      hsk, huh, hue, hcu, hae, had, hoc, hra, hcp, hdu, hup, hsi, hpo,
      Except.map]

/-- Witness for C8: a concrete re-deploy — the application already exists and
its registered owner equals the resolved username — returns the registry
serving address, with the extra 20-second sleep and the port wait before the
success report. -/
theorem upload_app_success_serving_contract_witness :
    upload_app uploadEnvReDeploy uploadOptsTarGz = (.ok ("1.2.3.6", 8080),
      [Effect.extractApp "guestbook.tar.gz",
       Effect.logMsg "Uploading new version of app guestbook",
       Effect.copyAppToHost "/tmp/appscale-app-guestbook",
       Effect.doneUploading "guestbook" "/opt/appscale/guestbook.tar.gz",
       Effect.update "guestbook",
       Effect.logMsg "Please wait for your app to start serving.",
       Effect.sleep 20,
       Effect.sleepUntilPortIsOpen "1.2.3.6" 8080,
       Effect.successMsg ("Your app can be reached at the following URL: " ++
         "http://" ++ "1.2.3.6" ++ ":" ++ toString 8080),
       Effect.rmtree "/tmp/appscale-app-guestbook"]) := by
  have h := upload_app_success_serving_contract uploadEnvReDeploy
    uploadOptsTarGz "/tmp/appscale-app-guestbook" "guestbook" "python"
    "1.2.3.4" "secret" "1.2.3.5" "/opt/appscale/guestbook.tar.gz" "1.2.3.6"
    8080 true true (some DEFAULT_USER) rfl rfl rfl rfl rfl rfl rfl rfl rfl
    rfl rfl rfl rfl rfl rfl rfl rfl rfl
  rw [h]
  rfl

/-- A membership guaranteed on success by the rest of the verb persists
through one sequencing step. -/
theorem effStep_mem_of_k {eff : Effect} {α β : Type} {x : Except Err α}
    {tr : List Effect} {k : α → Except Err β × List Effect}
    (hk : ∀ a, MemOnOk eff (k a)) : MemOnOk eff (effStep x tr k) := by
  intro v h
  cases x with
  | error e => simp [effStep] at h
  | ok a =>
    simp only [effStep] at h ⊢
    exact List.mem_append.mpr (Or.inr (hk a v h))

/-- Like `effStep_mem_of_k`, for a step whose call already succeeded. -/
theorem effStep_ok_mem {eff : Effect} {α β : Type} {a : α}
    {tr : List Effect} {k : α → Except Err β × List Effect}
    (hk : MemOnOk eff (k a)) : MemOnOk eff (effStep (.ok a) tr k) := by
  intro v h
  simp only [effStep] at h ⊢
  exact List.mem_append.mpr (Or.inr (hk v h))

/-- A membership in the effects of the step itself persists on success. -/
theorem effStep_mem_of_tr {eff : Effect} {α β : Type} {x : Except Err α}
    {tr : List Effect} {k : α → Except Err β × List Effect}
    (htr : eff ∈ tr) : MemOnOk eff (effStep x tr k) := by
  intro v h
  cases x with
  | error e => simp [effStep] at h
  | ok a =>
    simp only [effStep]
    exact List.mem_append.mpr (Or.inl htr)

/-- Absence of directory removals on error paths is preserved by one
sequencing step whose own effects contain no removal. -/
theorem effStep_noRmtree {α β : Type} {x : Except Err α} {tr : List Effect}
    {k : α → Except Err β × List Effect}
    (htr : ∀ p, Effect.rmtree p ∉ tr) (hk : ∀ a, NoRmtreeOnErr (k a)) :
    NoRmtreeOnErr (effStep x tr k) := by
  intro e p h
  cases x with
  | error e2 =>
    simp only [effStep]
    exact htr p
  | ok a =>
    simp only [effStep] at h ⊢
    intro hm
    rcases List.mem_append.mp hm with hm | hm
    · exact htr p hm
    · exact hk a e p h hm

/-- On every error outcome of `upload_app` — wherever the failure happened —
the effect trace contains no directory removal: the extraction directory is
never cleaned up on failure. -/
theorem upload_app_err_no_rmtree (env : UploadEnv) (opts : UploadOptions) :
    NoRmtreeOnErr (upload_app env opts) := by
  unfold upload_app
  refine effStep_noRmtree (by intro p; split <;> simp) fun fl => ?_
  refine effStep_noRmtree (by intro p; simp) fun app_id => ?_
  refine effStep_noRmtree (by intro p; simp) fun app_language => ?_
  refine effStep_noRmtree (by intro p; simp) fun _ => ?_
  refine effStep_noRmtree (by intro p; simp) fun _login_host => ?_
  refine effStep_noRmtree (by intro p; simp) fun _secret => ?_
  refine effStep_noRmtree (by intro p; simp) fun userappserver_host => ?_
  refine effStep_noRmtree (by intro p; simp) fun user_exists => ?_
  refine effStep_noRmtree (by intro p; split <;> simp) fun _ => ?_
  refine effStep_noRmtree (by intro p; simp) fun app_exists => ?_
  refine effStep_noRmtree (by intro p; simp) fun app_admin => ?_
  refine effStep_noRmtree (by intro p; simp) fun _ => ?_
  refine effStep_noRmtree (by intro p; split <;> simp) fun _ => ?_
  refine effStep_noRmtree (by intro p; simp) fun remote_file_path => ?_
  refine effStep_noRmtree (by intro p; simp) fun _ => ?_
  refine effStep_noRmtree (by intro p; simp) fun _ => ?_
  refine effStep_noRmtree (by intro p; simp) fun _ => ?_
  refine effStep_noRmtree (by intro p; split <;> simp) fun _ => ?_
  refine effStep_noRmtree (by intro p; simp) fun sp => ?_
  refine effStep_noRmtree (by intro p; simp) fun _ => ?_
  intro e p h
  simp [effStep] at h

/-- On every success outcome of `upload_app` on a `.tar.gz` bundle, the effect
trace contains the removal of the extraction directory. -/
theorem upload_app_ok_rmtree (env : UploadEnv) (opts : UploadOptions)
    (d : String) (htgz : tarGzMatch opts.file = true)
    (hd : env.extractAppToDir = .ok d) :
    MemOnOk (Effect.rmtree d) (upload_app env opts) := by
  unfold upload_app
  simp only [htgz, hd, Except.map, eq_self_iff_true, if_true]
  refine effStep_ok_mem ?_
  refine effStep_mem_of_k fun app_id => ?_
  refine effStep_mem_of_k fun app_language => ?_
  refine effStep_mem_of_k fun _ => ?_
  refine effStep_mem_of_k fun _login_host => ?_
  refine effStep_mem_of_k fun _secret => ?_
  refine effStep_mem_of_k fun userappserver_host => ?_
  refine effStep_mem_of_k fun user_exists => ?_
  refine effStep_mem_of_k fun _ => ?_
  refine effStep_mem_of_k fun app_exists => ?_
  refine effStep_mem_of_k fun app_admin => ?_
  refine effStep_mem_of_k fun _ => ?_
  refine effStep_mem_of_k fun _ => ?_
  refine effStep_mem_of_k fun remote_file_path => ?_
  refine effStep_mem_of_k fun _ => ?_
  refine effStep_mem_of_k fun _ => ?_
  refine effStep_mem_of_k fun _ => ?_
  refine effStep_mem_of_k fun _ => ?_
  refine effStep_mem_of_k fun sp => ?_
  refine effStep_mem_of_k fun _ => ?_
  refine effStep_mem_of_k fun _ => ?_
  exact effStep_mem_of_tr (by simp)

/-- C5 (amended): on a `.tar.gz` bundle the extracted temporary directory is
removed when `upload_app` succeeds — but when `upload_app` fails, no removal
happens and the temporary directory is left behind. -/
theorem upload_app_tgz_cleanup_on_success_only (env : UploadEnv)
    (opts : UploadOptions) (d : String)
    (htgz : tarGzMatch opts.file = true)
    (hd : env.extractAppToDir = .ok d) :
    (∀ v, (upload_app env opts).1 = .ok v →
      Effect.rmtree d ∈ (upload_app env opts).2) ∧
    (∀ e p, (upload_app env opts).1 = .error e →
      Effect.rmtree p ∉ (upload_app env opts).2) :=
  ⟨upload_app_ok_rmtree env opts d htgz hd, upload_app_err_no_rmtree env opts⟩

/-- Witness for C5 (amended): the successful concrete upload removes its
extraction directory. -/
theorem upload_app_tgz_cleanup_on_success_only_witness :
    Effect.rmtree "/tmp/appscale-app-guestbook" ∈
      (upload_app uploadEnvNoOwner uploadOptsTarGz).2 :=
  (upload_app_tgz_cleanup_on_success_only uploadEnvNoOwner uploadOptsTarGz
    "/tmp/appscale-app-guestbook" rfl rfl).1 ("1.2.3.6", 8080) rfl

/-- Counterexample for C5 as stated: on a concrete `.tar.gz` upload rejected
by the ownership check, the bundle was extracted but the effect trace contains
no directory removal at all — the temporary directory is not removed on
failure. -/
theorem upload_app_tgz_cleanup_counterexample :
    (upload_app uploadEnvOwnerMismatch uploadOptsTarGz).1 =
      .error (.appScaleException ownershipRejectionMsg) ∧
    Effect.extractApp "guestbook.tar.gz" ∈
      (upload_app uploadEnvOwnerMismatch uploadOptsTarGz).2 ∧
    (∀ p, Effect.rmtree p ∉
      (upload_app uploadEnvOwnerMismatch uploadOptsTarGz).2) := by
  refine ⟨rfl, ?_, ?_⟩
  · have ht : (upload_app uploadEnvOwnerMismatch uploadOptsTarGz).2 =
        [Effect.extractApp "guestbook.tar.gz"] := rfl
    rw [ht]
    simp
  · intro p
    have ht : (upload_app uploadEnvOwnerMismatch uploadOptsTarGz).2 =
        [Effect.extractApp "guestbook.tar.gz"] := rfl
    rw [ht]
    simp

/-- The node loop emits exactly one warning per node whose status query
fails. -/
theorem nodes_trace_warn_count (env : DescribeEnv) (ips : List String) :
    ((nodes_trace env ips).filter isWarnEffect).length =
      (ips.filter (fun ip => !isOkExcept (env.getStatus ip))).length := by
  induction ips with
  | nil => rfl
  | cons ip tl ih =>
    cases h : env.getStatus ip <;>
      simp [nodes_trace, node_status_trace, h, isWarnEffect, isOkExcept, ih]

/-- C6: once the roster of public addresses is known, `describe_instances`
always succeeds as a whole; its trace is the per-node query traces in roster
order followed by the success report, and it contains exactly one warning per
node whose status query failed — a failing node does not abort the others. -/
theorem describe_instances_partial_failure (env : DescribeEnv)
    (opts : DescribeOptions) (lh sk : String) (ips : List String)
    (hlh : env.getLoginHost = .ok lh)
    (hsk : env.getSecretKey = .ok sk)
    (hips : env.getAllPublicIps = .ok ips) :
    (describe_instances env opts).1 = .ok () ∧
    (describe_instances env opts).2 = nodes_trace env ips ++
      [Effect.successMsg ("View status information about your AppScale " ++
        "deployment at http://" ++ lh ++ "/status")] ∧
    ((describe_instances env opts).2.filter isWarnEffect).length =
      (ips.filter (fun ip => !isOkExcept (env.getStatus ip))).length := by
  refine ⟨?_, ?_, ?_⟩ <;>
    simp [describe_instances, effStep, hlh, hsk, hips,
      nodes_trace_warn_count, isWarnEffect]

/-- Witness for C6: with three known nodes of which two are unreachable, the
call succeeds, reports the one status, and warns twice. -/
theorem describe_instances_partial_failure_witness :
    (describe_instances describeEnvPartial describeOptsBoot).1 = .ok () ∧
    ((describe_instances describeEnvPartial describeOptsBoot).2.filter
      isWarnEffect).length = 2 ∧
    Effect.logMsg "node is up" ∈
      (describe_instances describeEnvPartial describeOptsBoot).2 := by
  have h := describe_instances_partial_failure describeEnvPartial
    describeOptsBoot "1.2.3.4" "secret" ["1.2.3.4", "1.2.3.5", "1.2.3.6"]
    rfl rfl rfl
  refine ⟨h.1, ?_, ?_⟩
  · rw [h.2.2]
    rfl
  · rw [h.2.1]
    decide

/-- C7: the admin credentials of `run_instances` come from exactly one of the
three sources, with mutually exclusive precedence in this order: both explicit
flags truthy, otherwise the test flag, otherwise the interactive prompt. -/
theorem run_instances_credential_precedence (opts : RunOptions)
    (prompt : String × String) :
    ((truthy opts.admin_user && truthy opts.admin_pass) = true ∧
      resolve_admin_credentials opts prompt =
        (opts.admin_user.getD "", opts.admin_pass.getD "")) ∨
    ((truthy opts.admin_user && truthy opts.admin_pass) = false ∧
      opts.test = true ∧
      resolve_admin_credentials opts prompt = (DEFAULT_USER, DEFAULT_PASSWORD)) ∨
    ((truthy opts.admin_user && truthy opts.admin_pass) = false ∧
      opts.test = false ∧
      resolve_admin_credentials opts prompt = prompt) := by
  cases hflags : truthy opts.admin_user && truthy opts.admin_pass <;>
    cases htest : opts.test <;>
    simp [resolve_admin_credentials, hflags, htest]

/-- C9: if the destination already exists, or the keyname's login-host or
secret-key lookup fails, `gather_logs` raises and creates no directory — the
destination `mkdir` only happens after the secret key has been resolved. -/
theorem gather_logs_no_mkdir_on_precondition_failure (env : GatherEnv)
    (opts : GatherOptions)
    (h : env.locationExists = true ∨ (∃ e, env.getLoginHost = .error e) ∨
      (∃ e, env.getSecretKey = .error e)) :
    (∃ e, (gather_logs env opts).1 = .error e) ∧
    ∀ p, Effect.mkdir p ∉ (gather_logs env opts).2 := by
  cases hle : env.locationExists with
  | true =>
    constructor
    · exact ⟨.appScaleException ("Cannot gather logs, as the location you " ++
        "specified, " ++ opts.location ++ ", already exists."),
        by simp [gather_logs, hle]⟩
    · intro p
      simp [gather_logs, hle]
  | false =>
    rcases h with h1 | ⟨e, he⟩ | ⟨e, he⟩
    · rw [hle] at h1
      exact absurd h1 (by simp)
    · constructor
      · exact ⟨e, by simp [gather_logs, hle, he, effStep]⟩
      · intro p
        simp [gather_logs, hle, he, effStep]
    · cases hlh : env.getLoginHost with
      | error e2 =>
        constructor
        · exact ⟨e2, by simp [gather_logs, hle, hlh, effStep]⟩
        · intro p
          simp [gather_logs, hle, hlh, effStep]
      | ok lh =>
        constructor
        · exact ⟨e, by simp [gather_logs, hle, hlh, he, effStep]⟩
        · intro p
          simp [gather_logs, hle, hlh, he, effStep]

/-- Witness for C9: a concrete destination collision raises before any local
directory is created. -/
theorem gather_logs_no_mkdir_on_precondition_failure_witness :
    (∃ e, (gather_logs gatherEnvExisting gatherOptsBoot).1 = .error e) ∧
    ∀ p, Effect.mkdir p ∉ (gather_logs gatherEnvExisting gatherOptsBoot).2 :=
  gather_logs_no_mkdir_on_precondition_failure gatherEnvExisting gatherOptsBoot
    (Or.inl rfl)

/-- C2 (amended): a successful `run_instances` followed immediately by
`terminate_instances` on the same keyname leaves no local metadata record,
provided the chosen remote teardown call returns normally (even if it only
partially succeeded remotely); when the teardown call raises, the record is
not deleted (see the counterexample). -/
theorem run_then_terminate_cleanup_on_return (renv : RunEnv)
    (ropts : RunOptions) (tenv : TermEnv) (topts : TermOptions) (fs : FS)
    (ip iid sk uh lh : String)
    (hkn : topts.keyname = ropts.keyname)
    (h0 : fs.contains ropts.keyname = false)
    (hlv : renv.layoutValid = true)
    (hsh : renv.startHeadNode = .ok (ip, iid))
    (hcm : renv.copyLocalMetadata = .ok ())
    (hsk : renv.getSecretKey = .ok sk)
    (huh : renv.getUaserverHost = .ok uh)
    (hp1 : renv.portOpenUaserver = .ok ())
    (hcu : renv.createUserAccounts = .ok ())
    (hsa : renv.setAdminRole = .ok ())
    (hwm : renv.waitForMachinesToFinishLoading = .ok ())
    (hlh : renv.getLoginHost = .ok lh)
    (hp2 : renv.portOpenDashboard = .ok ())
    (htc : tenv.terminateCloudInfrastructure = .ok ())
    (htv : tenv.terminateVirtualizedCluster = .ok ()) :
    (run_instances renv ropts fs).1 = .ok () ∧
    ((terminate_instances tenv topts
        (run_instances renv ropts fs).2.1).2.1).contains topts.keyname =
      false := by
  have h0' : ropts.keyname ∉ fs := by
    intro hm
    simp [hm] at h0
  have hfs : (run_instances renv ropts fs).2.1 = ropts.keyname :: fs := by
    simp [run_instances, fsStep, fsSave, h0', hlv, hsh, hcm, hsk, huh, hp1,
      hcu, hsa, hwm, hlh, hp2]
  have hok : (run_instances renv ropts fs).1 = .ok () := by
    simp [run_instances, fsStep, fsSave, h0', hlv, hsh, hcm, hsk, huh, hp1,
      hcu, hsa, hwm, hlh, hp2]
  refine ⟨hok, ?_⟩
  rw [hfs]
  have hmem : topts.keyname ∈ ropts.keyname :: fs := by
    rw [hkn]
    exact List.mem_cons_self _ _
  by_cases hb : tenv.getInfrastructure ∈ tenv.validAgents <;>
    simp [terminate_instances, hb, hmem, htc, htv, fsDelete, hkn, h0']

/-- Witness for C2 (amended): the concrete boot-then-terminate pair with a
normally returning teardown deletes the metadata record. -/
theorem run_then_terminate_cleanup_on_return_witness :
    (run_instances runEnvAllOk runOptsBoot []).1 = .ok () ∧
    ((terminate_instances termEnvOk termOptsBoot
        (run_instances runEnvAllOk runOptsBoot []).2.1).2.1).contains
      "bootkey" = false :=
  run_then_terminate_cleanup_on_return runEnvAllOk runOptsBoot termEnvOk
    termOptsBoot [] "1.2.3.4" "i-ABCDEFG" "secret" "1.2.3.5" "1.2.3.4"
    rfl rfl rfl rfl rfl rfl rfl rfl rfl rfl rfl rfl rfl rfl rfl

/-- Counterexample for C2 as stated: after a successful concrete
`run_instances`, a `terminate_instances` whose remote teardown call raises
leaves the local metadata record in place — deletion is not unconditional. -/
theorem run_then_terminate_metadata_counterexample :
    ((terminate_instances termEnvRaising termOptsBoot
        (run_instances runEnvAllOk runOptsBoot []).2.1).2.1).contains
      "bootkey" = true ∧
    (terminate_instances termEnvRaising termOptsBoot
        (run_instances runEnvAllOk runOptsBoot []).2.1).1 =
      .error (.remoteFailure "shutdown failed") := by
  constructor <;> rfl
